import Mathlib

set_option maxRecDepth 40000

/-!
Verification of the DHCPv4/DHCPv6 client simulator
(`client/dhcp_simulator.py`, `client/dhcpv6_simulator.py`).

Shallow embedding conventions:
* Byte strings are `List Nat`, each element a byte value `0..255` produced by
  the big-endian packers below.  Python `struct.pack` range errors are modelled
  where they matter (the DHCPv6 encoder, namespace `V6`) by `Except`-valued
  packers; the v4 packers are total because every v4 call site packs in-range
  values, and theorems carry the in-range hypotheses.
* `socket.inet_aton` / `inet_ntoa` form a bijection between dotted-quad strings
  and 4-byte values, so v4 addresses are represented directly by their 4-byte
  form.  DHCPv6 socket addresses are kept as the strings the code passes around
  (`inet_pton` of the prefix hint is represented by its 16-byte value).
* A blocking `recvfrom` loop is modelled as a function over the finite list of
  datagrams delivered before the socket timeout fires; reaching the end of the
  list is the `socket.timeout` branch.
* A Python `IndexError` / uncaught exception escaping a function is modelled by
  an explicit `crash` constructor rather than by a defined result.
* Calls to `random.*` are made explicit parameters (`mac`, `xid`, `duid`,
  `iaId`, ...); network sends have no effect on the properties studied and are
  modelled by the packet/destination values they would transmit.
-/

/-- Big-endian 2-byte encoding, `struct.pack('!H', x)` for in-range `x`. -/
def pack16 (x : Nat) : List Nat := [x / 256 % 256, x % 256]

/-- Big-endian 4-byte encoding, `struct.pack('!I', x)` for in-range `x`. -/
def pack32 (x : Nat) : List Nat :=
  [x / 16777216 % 256, x / 65536 % 256, x / 256 % 256, x % 256]

/-- Big-endian 4-byte decoding, inverse of `pack32` on values below `2^32`. -/
def unpack32 (bs : List Nat) : Nat :=
  match bs with
  | [a, b, c, d] => a * 16777216 + b * 65536 + c * 256 + d
  | _ => 0

theorem unpack32_pack32 (x : Nat) (h : x < 4294967296) : unpack32 (pack32 x) = x := by
  simp only [pack32, unpack32]
  omega

/-- Model of `struct`'s `Ns` fixed-size byte-string field: pad with zero bytes or
truncate to exactly `n` bytes. -/
def fixedBytes (n : Nat) (s : List Nat) : List Nat :=
  (s ++ List.replicate n 0).take n

namespace V4

/-- Source `build_bootp` from `dhcp_simulator.py`: the 236-byte BOOTP header
(`!BBBBIHHIIII16s64s128s`) followed by the 4-byte magic cookie, with
`htype=1`, `hlen=6`, `hops=0`, `secs=0`, `flags=0x8000`,
`ciaddr=siaddr=giaddr=0`, `chaddr = mac ++ 10 zero bytes`. -/
def build_bootp (op yiaddr : Nat) (chaddr : List Nat) (xid : Nat) : List Nat :=
  [op, 1, 6, 0] ++ pack32 xid ++ pack16 0 ++ pack16 0x8000 ++
  pack32 0 ++ pack32 yiaddr ++ pack32 0 ++ pack32 0 ++
  fixedBytes 16 (chaddr ++ List.replicate 10 0) ++
  List.replicate 64 0 ++ List.replicate 128 0 ++ pack32 0x63825363

theorem build_bootp_length (op yiaddr : Nat) (chaddr : List Nat) (xid : Nat)
    (h : chaddr.length = 6) : (build_bootp op yiaddr chaddr xid).length = 240 := by
  simp only [build_bootp, fixedBytes, pack16, pack32, List.length_append,
    List.length_take, List.length_replicate, List.length_cons, List.length_nil, h]
  omega

/-- The packet assembled by `send_dhcp`: BOOTP frame plus the option
stream `53` (message type), `61` (client identifier `01‖mac`), optional `50`
(requested address) and `54` (server identifier), the parameter request list
`55` on DISCOVER, and the `0xff` end tag.  The datagram is sent to
`('255.255.255.255', 67)`; only the bytes matter for the claims. -/
def send_dhcp (msg_type : Nat) (mac : List Nat) (xid : Nat)
    (requested_ip server_id : Option (List Nat)) : List Nat :=
  build_bootp 1 0 mac xid ++
  ([0x35, 0x01, msg_type] ++
   ([0x3d, 0x07, 0x01] ++ mac) ++
   (match requested_ip with | some ip => [0x32, 0x04] ++ ip | none => []) ++
   (match server_id with | some sid => [0x36, 0x04] ++ sid | none => []) ++
   (if msg_type == 1 then [0x37, 0x03, 0x03, 0x01, 0x06] else []) ++
   [0xff])

/-- Result of the option scan inside `wait_for_msg`: the expected message-type
option was found, the scan ended without a match (`0xff` tag or end of
buffer), or an out-of-range byte access raised `IndexError`. -/
inductive ScanResult
  | found
  | noMatch
  | crash
deriving DecidableEq, Repr

/-- The option scan of `wait_for_msg` (lines 72-78 of `dhcp_simulator.py`):

```
index = 240
while index < len(data):
    if data[index] == 0xff: break
    if data[index] == 53 and data[index+2] == expected_type: return data, addr
    index += 2 + data[index+1]
```

`data[i]` for `i ≥ len(data)` raises `IndexError` (`ScanResult.crash`); the
accesses at `index+2` and `index+1` are unguarded in the source. -/
def scanOptions (data : List Nat) (expected : Nat) (index : Nat) : ScanResult :=
  match h : data[index]? with
  | none => .noMatch
  | some t =>
    if t == 0xff then .noMatch
    else
      if t == 53 then
        match data[index + 2]? with
        | none => .crash
        | some ty =>
          if ty == expected then .found
          else
            match data[index + 1]? with
            | none => .crash
            | some l => scanOptions data expected (index + 2 + l)
      else
        match data[index + 1]? with
        | none => .crash
        | some l => scanOptions data expected (index + 2 + l)
termination_by data.length - index
decreasing_by
  all_goals
    have hlt : index < data.length := (List.getElem?_eq_some.mp h).1
    omega

/-- A datagram as delivered by `recvfrom` on the v4 socket: payload bytes and
the sender's address (4-byte form of `addr[0]`). -/
abbrev Dgram4 := List Nat × List Nat

/-- Result of `wait_for_msg` over a finite queue of datagrams: a matching
datagram (with the sender address and the datagrams still queued), the
`socket.timeout` branch, or an uncaught `IndexError` from the option scan. -/
inductive Wait4Result
  | matched (data : List Nat) (addr : List Nat) (rest : List Dgram4)
  | timeout
  | crash
deriving DecidableEq, Repr

/-- Source `wait_for_msg`: drop datagrams whose bytes 4..8 differ from
`struct.pack('!I', xid)`, scan the rest for option 53 with the expected value,
return on a match, keep waiting otherwise; `socket.timeout` when the queue is
exhausted. -/
def wait_for_msg (xid expected : Nat) : List Dgram4 → Wait4Result
  | [] => .timeout
  | (data, addr) :: rest =>
    if (data.drop 4).take 4 == pack32 xid then
      match scanOptions data expected 240 with
      | .found => .matched data addr rest
      | .noMatch => wait_for_msg xid expected rest
      | .crash => .crash
    else
      wait_for_msg xid expected rest

/-- The packet and destination assembled by `send_release`: RELEASE message
type (53 = 7), client identifier, requested address (tag 50), server
identifier (tag 54), end tag; sent to `(server_ip, 67)`. -/
def send_release (mac : List Nat) (xid : Nat) (ip server_ip : List Nat) :
    List Nat × List Nat × Nat :=
  (build_bootp 1 0 mac xid ++
   ([0x35, 0x01, 0x07] ++
    ([0x3d, 0x07, 0x01] ++ mac) ++
    ([0x32, 0x04] ++ ip) ++
    ([0x36, 0x04] ++ server_ip) ++
    [0xff]),
   server_ip, 67)

end V4

namespace V6

/-- Model of `struct.pack('!B', x)`: one byte, or `struct.error` out of range. -/
def packB (x : Nat) : Except String (List Nat) :=
  if x < 256 then .ok [x] else .error "ubyte format requires 0 <= number <= 255"

/-- Model of `struct.pack('!H', x)`: two big-endian bytes, or `struct.error`. -/
def packH (x : Nat) : Except String (List Nat) :=
  if x < 65536 then .ok (pack16 x)
  else .error "'H' format requires 0 <= number <= 65535"

/-- Model of `struct.pack('!I', x)`: four big-endian bytes, or `struct.error`. -/
def packI (x : Nat) : Except String (List Nat) :=
  if x < 4294967296 then .ok (pack32 x)
  else .error "'I' format requires 0 <= number <= 4294967295"

/-- Source `create_dhcpv6_msg` from `dhcpv6_simulator.py`.  Header byte + 3-byte
transaction id, then: client identifier (code 1), server identifier (code 2)
when supplied, elapsed time (code 8, value 0), the IA_PD block (code 25) on
SOLICIT/REQUEST when a prefix hint is supplied, and the option request
(code 6, values 23 and 24).  `iaId` stands for the `random.randint` call that
picks the IA_PD association id.  The IA_Prefix sub-option is packed exactly as
in the source, `struct.pack('!HHBBI', 26, 25, preferred, valid, prefix_len)`,
so `preferred = 3600` is fed to a one-byte `B` field; the resulting
`struct.error` is the `Except.error` value.  The prefix hint is the 16-byte
`inet_pton` value of the (always non-empty) hint string. -/
def create_dhcpv6_msg (msg_type : Nat) (transaction_id duid : List Nat)
    (prefix_hint : Option (List Nat)) (server_duid : Option (List Nat))
    (iaId : Nat) : Except String (List Nat) := do
  let mt ← packB msg_type
  let header := mt ++ transaction_id
  let clientId ← do
    let a ← packH 1
    let b ← packH duid.length
    pure (a ++ b ++ duid)
  let serverId ← match server_duid with
    | some sd => do
        let a ← packH 2
        let b ← packH sd.length
        pure (a ++ b ++ sd)
    | none => pure []
  let elapsed ← do
    let a ← packH 8
    let b ← packH 2
    let c ← packH 0
    pure (a ++ b ++ c)
  let iaPd ← match prefix_hint with
    | some prefix_bytes =>
        if msg_type == 1 || msg_type == 3 then do
          let hdr ← do
            let a ← packI iaId
            let b ← packI 0
            let c ← packI 0
            pure (a ++ b ++ c)
          let iaPfx ← do
            let a ← packH 26
            let b ← packH 25
            let c ← packB 3600
            let d ← packB 7200
            let e ← packI 64
            pure (a ++ b ++ c ++ d ++ e ++ prefix_bytes)
          let body := hdr ++ iaPfx
          let a ← packH 25
          let b ← packH body.length
          pure (a ++ b ++ body)
        else pure []
    | none => pure []
  let optReq ← do
    let a ← packH 6
    let b ← packH 4
    let c ← packH 23
    let d ← packH 24
    pure (a ++ b ++ c ++ d)
  return header ++ clientId ++ serverId ++ elapsed ++ iaPd ++ optReq

/-- Configuration `DHCPV6_SERVER_IP` is read from the environment with Docker default
`'fe80::2'`; it is passed explicitly to the functions that use it. -/
def defaultServerIp : String := "fe80::2"

/-- The destination chosen by `send_dhcpv6`: SOLICIT goes to the
all-DHCP-agents multicast address, everything else to the *configured*
`DHCPV6_SERVER_IP`, both on port 547. -/
def send_dhcpv6_dest (serverIpConfig : String) (msg_type : Nat) : String × Nat :=
  if msg_type == 1 then ("ff02::1:2", 547) else (serverIpConfig, 547)

/-- Source `send_dhcpv6`: build the message with `create_dhcpv6_msg` and send it to
`send_dhcpv6_dest`; a `struct.error` from the encoder propagates. -/
def send_dhcpv6 (serverIpConfig : String) (msg_type : Nat)
    (duid transaction_id : List Nat) (server_duid prefix_hint : Option (List Nat))
    (iaId : Nat) : Except String (List Nat × String × Nat) := do
  let msg ← create_dhcpv6_msg msg_type transaction_id duid prefix_hint server_duid iaId
  return (msg, send_dhcpv6_dest serverIpConfig msg_type)

/-- The spec's description of `send_dhcpv6`'s destination, for comparison with
the source's `send_dhcpv6_dest`.  Per the spec, non-SOLICIT messages go to the
server address *learned from the earlier advertisement*. -/
def specSendDest (learnedServerIp : String) (msg_type : Nat) : String × Nat :=
  if msg_type == 1 then ("ff02::1:2", 547) else (learnedServerIp, 547)

/-- Source `parse_dhcpv6_options`: walk the TLV stream from `offset`, stopping
(without error) when fewer than 4 bytes remain or a declared length exceeds
the remaining buffer; collect `(code, value)` pairs in stream order. -/
def parse_dhcpv6_options (data : List Nat) (offset : Nat) : List (Nat × List Nat) :=
  if h : offset < data.length then
    if data.length < offset + 4 then []
    else
      let code := 256 * data.getD offset 0 + data.getD (offset + 1) 0
      let len := 256 * data.getD (offset + 2) 0 + data.getD (offset + 3) 0
      if data.length < offset + 4 + len then []
      else (code, (data.drop (offset + 4)).take len) ::
        parse_dhcpv6_options data (offset + 4 + len)
  else []
termination_by data.length - offset
decreasing_by omega

/-- Lookup in the options dictionary built by `parse_dhcpv6_options`: Python
dict assignment lets a later occurrence of a code overwrite an earlier one, so
the *last* matching pair wins. -/
def dictGet (kvs : List (Nat × List Nat)) (k : Nat) : Option (List Nat) :=
  match kvs with
  | [] => none
  | (c, v) :: rest =>
    match dictGet rest k with
    | some w => some w
    | none => if c == k then some v else none

/-- The sub-option walk of `extract_prefix_from_ia_pd` starting after the
12-byte IA_PD header; on an IA_Prefix sub-option (code 26, length ≥ 25) it
returns the 16 prefix bytes and the prefix length byte (the `inet_ntop`
string rendering is abstracted to that pair). -/
def extractGo (d : List Nat) (offset : Nat) : Option (List Nat × Nat) :=
  if h : offset < d.length then
    if d.length < offset + 4 then none
    else
      let c := 256 * d.getD offset 0 + d.getD (offset + 1) 0
      let l := 256 * d.getD (offset + 2) 0 + d.getD (offset + 3) 0
      if d.length < offset + 4 + l then none
      else if c = 26 ∧ 25 ≤ l then
        some ((d.drop (offset + 13)).take 16, d.getD (offset + 12) 0)
      else extractGo d (offset + 4 + l)
  else none
termination_by d.length - offset
decreasing_by omega

/-- Source `extract_prefix_from_ia_pd`: `None` for an IA_PD value shorter than 16
bytes, otherwise scan its sub-options from offset 12. -/
def extract_prefix_from_ia_pd (d : List Nat) : Option (List Nat × Nat) :=
  if d.length < 16 then none else extractGo d 12

/-- A datagram as delivered by `recvfrom` on the v6 socket: payload bytes and
the sender's address string. -/
abbrev Dgram6 := List Nat × String

/-- Result of `wait_for_dhcpv6_response`: a matching datagram together with
its parsed options and the datagrams still queued, or `socket.timeout`. -/
inductive Wait6Result
  | matched (data : List Nat) (addr : String)
      (options : List (Nat × List Nat)) (rest : List Dgram6)
  | timeout
deriving DecidableEq, Repr

/-- Source `wait_for_dhcpv6_response`: skip datagrams shorter than 4 bytes and
datagrams whose transaction id (bytes 1..4) or message type (byte 0) does not
match; on a match, parse the options from offset 4 and return. -/
def wait_for_dhcpv6_response (transaction_id : List Nat) (expected : Nat) :
    List Dgram6 → Wait6Result
  | [] => .timeout
  | (data, addr) :: rest =>
    if data.length < 4 then wait_for_dhcpv6_response transaction_id expected rest
    else
      if (data.drop 1).take 3 == transaction_id && data.headD 0 == expected then
        .matched data addr (parse_dhcpv6_options data 4) rest
      else
        wait_for_dhcpv6_response transaction_id expected rest

end V6

/-- The shared `stats` dictionary `{"success": 0, "failed": 0}`. -/
structure Stats where
  success : Nat
  failed : Nat
deriving DecidableEq, Repr

/-- Constant `TOTAL_CLIENTS` from the config block of both simulators. -/
def TOTAL_CLIENTS : Nat := 50

namespace V4

/-- One entry of the `clients` registry:
`(mac, xid, offered_ip, server_ip)` (addresses in 4-byte form). -/
structure Lease where
  mac : List Nat
  xid : Nat
  ip : List Nat
  server_ip : List Nat
deriving DecidableEq, Repr

/-- Terminal outcome of one `dhcp_client_logic` call; `crashed` stands for an
uncaught exception (e.g. `IndexError` from the option scan) escaping the
function. -/
inductive Outcome
  | noOffer
  | noAck
  | succeeded
  | crashed
deriving DecidableEq, Repr

def Outcome.isCrash : Outcome → Bool
  | .crashed => true
  | _ => false

/-- Source `dhcp_client_logic` for one client, over the finite queue of datagrams its
socket receives.  The DISCOVER/REQUEST sends have no effect on the modelled
state; the two `wait_for_msg` calls consume the queue in order.  The shared
`stats` and `clients` state is passed explicitly and returned updated. -/
def dhcp_client_logic (mac : List Nat) (xid : Nat) (queue : List Dgram4)
    (stats : Stats) (clients : List Lease) : Outcome × Stats × List Lease :=
  match wait_for_msg xid 2 queue with
  | .crash => (.crashed, stats, clients)
  | .timeout => (.noOffer, { stats with failed := stats.failed + 1 }, clients)
  | .matched offer addr rest =>
    let offered_ip := (offer.drop 16).take 4
    let server_ip := addr
    match wait_for_msg xid 5 rest with
    | .crash => (.crashed, stats, clients)
    | .timeout => (.noAck, { stats with failed := stats.failed + 1 }, clients)
    | .matched _ _ _ =>
      (.succeeded, { stats with success := stats.success + 1 },
       clients ++ [⟨mac, xid, offered_ip, server_ip⟩])

/-- Per-client environment: the client's random mac and xid, and the datagrams
its socket receives. -/
abbrev ClientEnv := List Nat × Nat × List Dgram4

/-- Source `run_clients`: run every transaction, threading the shared stats/registry
(their mutation is a single `+=` per transaction; the concurrency of the
thread pool is abstracted to an arbitrary completion order, here the list
order).  The flag records whether some transaction raised. -/
def run_clients : List ClientEnv → Bool × Stats × List Lease
  | [] => (false, ⟨0, 0⟩, [])
  | (mac, xid, queue) :: rest =>
    let (crashed, stats, clients) := run_clients rest
    let (o, stats', clients') := dhcp_client_logic mac xid queue stats clients
    (crashed || o.isCrash, stats', clients')

/-- One pass of `handle_exit`'s release loop: `for mac, xid, ip, srv in
clients: send_release(...)`.  The loop iterates the registry and leaves it
unchanged — nothing is drained. -/
def release_pass (clients : List Lease) :
    List (List Nat × List Nat × Nat) × List Lease :=
  (clients.map fun l => send_release l.mac l.xid l.ip l.server_ip, clients)

/-- Source `handle_exit`: send one release per registry entry, print the final stats,
and `sys.exit(0)` — the exit status is 0 whatever the counters hold. -/
def handle_exit (clients : List Lease) (stats : Stats) :
    List (List Nat × List Nat × Nat) × Stats × Nat :=
  ((release_pass clients).1, stats, 0)

end V4

/-- The readiness-probe retry loop shared by both `__main__` blocks: attempts
are made while the deadline window is open, stopping at the first success.
The list holds the outcomes of the probe attempts that fit inside
`HEALTH_CHECK_TIMEOUT` (wall-clock time is abstracted into the length of the
list); the loop exits early on the first `True`. -/
def healthLoop : List Bool → Bool
  | [] => false
  | r :: rest => if r then true else healthLoop rest

theorem healthLoop_eq_any (attempts : List Bool) :
    healthLoop attempts = attempts.any id := by
  induction attempts with
  | nil => rfl
  | cons r rest ih => cases r <;> simp [healthLoop, ih]

/-- Final observable behaviour of the process: `sys.exit(code)`, or an
uncaught exception propagating out of `asyncio.run` (CPython then exits with
status 1 after printing the traceback). -/
inductive ProcOutcome
  | exited (code : Nat)
  | uncaught
deriving DecidableEq, Repr

/-- The exit status the operating system observes. -/
def exitCodeOf : ProcOutcome → Nat
  | .exited c => c
  | .uncaught => 1

namespace V4

/-- The `__main__` block of `dhcp_simulator.py` (signal delivery abstracted to
the normal-completion path): privilege check (`os.geteuid() != 0` exits 1),
readiness loop (all probe attempts failing exits 1 before any client is
launched), then `run_clients`; an exception escaping `asyncio.run` is uncaught
(only `KeyboardInterrupt` is handled), otherwise the hold period elapses and
`handle_exit` terminates the process.  Returns the process outcome, the number
of client transactions launched, and the final stats. -/
def main (euidRoot : Bool) (probe : List Bool) (envs : List ClientEnv) :
    ProcOutcome × Nat × Stats :=
  if !euidRoot then (.exited 1, 0, ⟨0, 0⟩)
  else if !(healthLoop probe) then (.exited 1, 0, ⟨0, 0⟩)
  else
    let (crashed, stats, clients) := run_clients envs
    if crashed then (.uncaught, envs.length, stats)
    else (.exited (handle_exit clients stats).2.2, envs.length, stats)

end V4

namespace V6

/-- Value of `inet_pton(AF_INET6, 'fd00:1234:5678::')`: the 16-byte value of the
hard-coded prefix hint used by `dhcpv6_client_logic` and the health check. -/
def prefixHintBytes : List Nat :=
  [0xfd, 0x00, 0x12, 0x34, 0x56, 0x78, 0, 0, 0, 0, 0, 0, 0, 0, 0, 0]

/-- One entry of the v6 `clients` registry:
`(duid, transaction_id, server_duid, delegated_prefix, server_ip)`; the
delegated prefix is the `(bytes, length)` pair extracted from IA_PD (the
source keeps its string rendering). -/
structure Lease where
  duid : List Nat
  tid : List Nat
  server_duid : List Nat
  delegated : Option (List Nat × Nat)
  server_ip : String
deriving DecidableEq, Repr

/-- Terminal outcome of one `dhcpv6_client_logic` call; `crashed` records an
uncaught exception (here the `struct.error` raised while encoding) with its
message. -/
inductive Outcome
  | noAdvertise
  | noServerDuid
  | noReply
  | succeeded
  | crashed (msg : String)
deriving DecidableEq, Repr

def Outcome.isCrash : Outcome → Bool
  | .crashed _ => true
  | _ => false

/-- Source `dhcpv6_client_logic` for one client.  The SOLICIT and REQUEST are both
sent with the hard-coded prefix hint; `iaId1`/`iaId2` stand for the two
`random.randint` draws inside `create_dhcpv6_msg`.  A `struct.error` raised
while encoding escapes the function (only `finally: sock.close()` guards the
body), leaving stats and registry untouched. -/
def dhcpv6_client_logic (duid tid : List Nat) (iaId1 iaId2 : Nat)
    (queue : List Dgram6) (stats : Stats) (clients : List Lease) :
    Outcome × Stats × List Lease :=
  match create_dhcpv6_msg 1 tid duid (some prefixHintBytes) none iaId1 with
  | .error e => (.crashed e, stats, clients)
  | .ok _ =>
    match wait_for_dhcpv6_response tid 2 queue with
    | .timeout => (.noAdvertise, { stats with failed := stats.failed + 1 }, clients)
    | .matched _ addr options rest =>
      match dictGet options 2 with
      | none => (.noServerDuid, { stats with failed := stats.failed + 1 }, clients)
      | some server_duid =>
        let server_ip := addr
        let delegated0 := match dictGet options 25 with
          | some iapd => extract_prefix_from_ia_pd iapd
          | none => none
        match create_dhcpv6_msg 3 tid duid (some prefixHintBytes)
            (some server_duid) iaId2 with
        | .error e => (.crashed e, stats, clients)
        | .ok _ =>
          match wait_for_dhcpv6_response tid 7 rest with
          | .timeout => (.noReply, { stats with failed := stats.failed + 1 }, clients)
          | .matched _ _ reply_options _ =>
            let delegated := match dictGet reply_options 25 with
              | some iapd => extract_prefix_from_ia_pd iapd
              | none => delegated0
            (.succeeded, { stats with success := stats.success + 1 },
             clients ++ [⟨duid, tid, server_duid, delegated, server_ip⟩])

/-- Per-client environment: random duid, transaction id, the two IA_PD
association-id draws, and the datagrams the socket receives. -/
abbrev ClientEnv := List Nat × List Nat × Nat × Nat × List Dgram6

/-- Source `run_clients` for the v6 simulator, as in the v4 model. -/
def run_clients : List ClientEnv → Bool × Stats × List Lease
  | [] => (false, ⟨0, 0⟩, [])
  | (duid, tid, iaId1, iaId2, queue) :: rest =>
    let (crashed, stats, clients) := run_clients rest
    let (o, stats', clients') := dhcpv6_client_logic duid tid iaId1 iaId2 queue stats clients
    (crashed || o.isCrash, stats', clients')

/-- Source `send_release` for one v6 lease: RELEASE (type 8) with the client and
server DUIDs, sent to `(server_ip, 547)`; the body is wrapped in
`try/except`, so an encoder error is logged and nothing is sent (`none`).
No prefix hint is passed, so no `random.randint` draw happens (the unused
`iaId` argument is 0). -/
def send_release (l : Lease) : Option (List Nat × String × Nat) :=
  match create_dhcpv6_msg 8 l.tid l.duid none (some l.server_duid) 0 with
  | .ok m => some (m, l.server_ip, 547)
  | .error _ => none

/-- One pass of the v6 `handle_exit` release loop: iterate the registry,
best-effort send per lease, registry left unchanged. -/
def release_pass (clients : List Lease) :
    List (List Nat × String × Nat) × List Lease :=
  (clients.filterMap send_release, clients)

/-- v6 `handle_exit`: release every registry entry, print stats,
`sys.exit(0)`. -/
def handle_exit (clients : List Lease) (stats : Stats) :
    List (List Nat × String × Nat) × Stats × Nat :=
  ((release_pass clients).1, stats, 0)

/-- The `__main__` block of `dhcpv6_simulator.py` (the `--debug` branch and
signal delivery abstracted away), mirroring `V4.main`. -/
def main (euidRoot : Bool) (probe : List Bool) (envs : List ClientEnv) :
    ProcOutcome × Nat × Stats :=
  if !euidRoot then (.exited 1, 0, ⟨0, 0⟩)
  else if !(healthLoop probe) then (.exited 1, 0, ⟨0, 0⟩)
  else
    let (crashed, stats, clients) := run_clients envs
    if crashed then (.uncaught, envs.length, stats)
    else (.exited (handle_exit clients stats).2.2, envs.length, stats)

end V6

/-! Helper lemmas about indexing past a known block of bytes. -/

theorem getElem?_append_len {α : Type} (pre l : List α) (i : Nat) :
    (pre ++ l)[pre.length + i]? = l[i]? := by
  rw [List.getElem?_append_right (by omega)]
  congr 1
  omega

theorem getD_append_len (pre l : List Nat) (i : Nat) :
    (pre ++ l).getD (pre.length + i) 0 = l.getD i 0 := by
  simp only [List.getD, List.get?_eq_getElem?, getElem?_append_len]

namespace V4

/-- Modelled from the spec: the v4 option-stream decoder, §4.1/§6 — scan
`tag(1) len(1) value(len)` entries from `index`, stopping at the `0xFF` end
tag or the end of the buffer, and return the value of the first entry whose
tag matches.  The source contains only the tag-53 scan inside `wait_for_msg`;
this general value extractor (needed to state the round-trip and release
claims) follows the same stepping discipline. -/
def find_option (data : List Nat) (tag : Nat) (index : Nat) : Option (List Nat) :=
  match h : data[index]? with
  | none => none
  | some t =>
    if t == 0xff then none
    else
      match data[index + 1]? with
      | none => none
      | some l =>
        if t == tag then some ((data.drop (index + 2)).take l)
        else find_option data tag (index + 2 + l)
termination_by data.length - index
decreasing_by
  have hlt : index < data.length := (List.getElem?_eq_some.mp h).1
  omega

/-- Encoding of a list of v4 options as the source writes them:
one tag byte, one length byte (the value's length), then the value. -/
def encodeOptions : List (Nat × List Nat) → List Nat
  | [] => []
  | (t, v) :: rest => t :: v.length :: (v ++ encodeOptions rest)

theorem find_option_end (data : List Nat) (tag index : Nat)
    (h : data[index]? = some 0xff) : find_option data tag index = none := by
  unfold find_option
  split <;> simp_all

theorem find_option_hit (data : List Nat) (tag index t l : Nat)
    (h : data[index]? = some t) (ht : t ≠ 0xff) (h1 : data[index + 1]? = some l)
    (htag : t = tag) :
    find_option data tag index = some ((data.drop (index + 2)).take l) := by
  unfold find_option
  split <;> simp_all

theorem find_option_miss (data : List Nat) (tag index t l : Nat)
    (h : data[index]? = some t) (ht : t ≠ 0xff) (h1 : data[index + 1]? = some l)
    (htag : t ≠ tag) :
    find_option data tag index = find_option data tag (index + 2 + l) := by
  conv_lhs => unfold find_option
  split <;> simp_all

/-- Scanning a well-formed encoded option stream finds exactly the first
option with the requested tag. -/
theorem find_option_encode (opts : List (Nat × List Nat)) (pre : List Nat)
    (tag : Nat) (hne : ∀ p ∈ opts, p.1 ≠ 0xff) :
    find_option (pre ++ (encodeOptions opts ++ [0xff])) tag pre.length
      = (opts.find? (fun p => p.1 == tag)).map Prod.snd := by
  induction opts generalizing pre with
  | nil =>
    have h0 : (pre ++ (encodeOptions [] ++ [0xff]))[pre.length]? = some 0xff := by
      simpa [encodeOptions] using getElem?_append_len pre (encodeOptions [] ++ [0xff]) 0
    simp [find_option_end _ _ _ h0]
  | cons hd tl ih =>
    obtain ⟨t, v⟩ := hd
    have ht : t ≠ 0xff := hne (t, v) (List.mem_cons_self _ _)
    have hdata : pre ++ (encodeOptions ((t, v) :: tl) ++ [0xff])
        = pre ++ (t :: v.length :: (v ++ (encodeOptions tl ++ [0xff]))) := by
      simp [encodeOptions]
    rw [hdata]
    have h0 : (pre ++ (t :: v.length :: (v ++ (encodeOptions tl ++ [0xff]))))[pre.length]?
        = some t := by
      simpa using getElem?_append_len pre (t :: v.length :: (v ++ (encodeOptions tl ++ [0xff]))) 0
    have h1 : (pre ++ (t :: v.length :: (v ++ (encodeOptions tl ++ [0xff]))))[pre.length + 1]?
        = some v.length := by
      simpa using getElem?_append_len pre (t :: v.length :: (v ++ (encodeOptions tl ++ [0xff]))) 1
    by_cases htag : t = tag
    · rw [find_option_hit _ _ _ _ _ h0 ht h1 htag]
      have hdrop : (pre ++ (t :: v.length :: (v ++ (encodeOptions tl ++ [0xff])))).drop
          (pre.length + 2) = v ++ (encodeOptions tl ++ [0xff]) := by
        have hsplit : pre ++ (t :: v.length :: (v ++ (encodeOptions tl ++ [0xff])))
            = (pre ++ [t, v.length]) ++ (v ++ (encodeOptions tl ++ [0xff])) := by
          simp
        rw [hsplit, show pre.length + 2 = (pre ++ [t, v.length]).length by simp,
          List.drop_left]
      rw [hdrop, List.take_left]
      simp [List.find?, htag]
    · rw [find_option_miss _ _ _ _ _ h0 ht h1 htag]
      have hstep : pre ++ (t :: v.length :: (v ++ (encodeOptions tl ++ [0xff])))
          = (pre ++ (t :: v.length :: v)) ++ (encodeOptions tl ++ [0xff]) := by
        simp
      have hlen : pre.length + 2 + v.length = (pre ++ (t :: v.length :: v)).length := by
        simp
        omega
      rw [hstep, hlen,
        ih (pre ++ (t :: v.length :: v)) (fun p hp => hne p (List.mem_cons_of_mem _ hp))]
      have hb : (t == tag) = false := beq_eq_false_iff_ne.mpr htag
      simp [List.find?, hb]

end V4

namespace V6

theorem exBind_ok {α β : Type} (a : α) (f : α → Except String β) :
    (Except.ok a >>= f : Except String β) = f a := rfl

theorem exBind_err {α β : Type} (e : String) (f : α → Except String β) :
    (Except.error e >>= f : Except String β) = .error e := rfl

theorem exPure {α : Type} (a : α) : (pure a : Except String α) = .ok a := rfl

theorem parse_nil (data : List Nat) (offset : Nat) (h : data.length ≤ offset) :
    parse_dhcpv6_options data offset = [] := by
  unfold parse_dhcpv6_options
  rw [dif_neg (by omega)]

theorem parse_cons (data : List Nat) (offset code len : Nat)
    (hc : 256 * data.getD offset 0 + data.getD (offset + 1) 0 = code)
    (hl : 256 * data.getD (offset + 2) 0 + data.getD (offset + 3) 0 = len)
    (hlt : offset < data.length) (h4 : ¬ data.length < offset + 4)
    (hfit : ¬ data.length < offset + 4 + len) :
    parse_dhcpv6_options data offset
      = (code, (data.drop (offset + 4)).take len)
        :: parse_dhcpv6_options data (offset + 4 + len) := by
  conv_lhs => unfold parse_dhcpv6_options
  subst hc hl
  simp only [dif_pos hlt, if_neg h4, if_neg hfit]

/-- Encoding of a list of v6 options as the source writes them: 2-byte code,
2-byte length (the value's length), then the value. -/
def encodeOptions6 : List (Nat × List Nat) → List Nat
  | [] => []
  | (c, v) :: rest => pack16 c ++ (pack16 v.length ++ (v ++ encodeOptions6 rest))

/-- Parsing a well-formed encoded option stream recovers exactly the encoded
options, in order. -/
theorem parse_encode (opts : List (Nat × List Nat)) (pre : List Nat)
    (hc : ∀ p ∈ opts, p.1 < 65536) (hv : ∀ p ∈ opts, p.2.length < 65536) :
    parse_dhcpv6_options (pre ++ encodeOptions6 opts) pre.length = opts := by
  induction opts generalizing pre with
  | nil =>
    apply parse_nil
    simp [encodeOptions6]
  | cons hd tl ih =>
    obtain ⟨c, v⟩ := hd
    have hc0 : c < 65536 := hc (c, v) (List.mem_cons_self _ _)
    have hv0 : v.length < 65536 := hv (c, v) (List.mem_cons_self _ _)
    have hdata : pre ++ encodeOptions6 ((c, v) :: tl)
        = pre ++ ((c / 256 % 256) :: (c % 256) :: (v.length / 256 % 256) ::
            (v.length % 256) :: (v ++ encodeOptions6 tl)) := by
      simp [encodeOptions6, pack16]
    rw [hdata]
    have hg : ∀ i : Nat,
        (pre ++ ((c / 256 % 256) :: (c % 256) :: (v.length / 256 % 256) ::
          (v.length % 256) :: (v ++ encodeOptions6 tl))).getD (pre.length + i) 0
        = ((c / 256 % 256) :: (c % 256) :: (v.length / 256 % 256) ::
            (v.length % 256) :: (v ++ encodeOptions6 tl)).getD i 0 :=
      fun i => getD_append_len pre _ i
    have hlen : (pre ++ ((c / 256 % 256) :: (c % 256) :: (v.length / 256 % 256) ::
        (v.length % 256) :: (v ++ encodeOptions6 tl))).length
        = pre.length + 4 + v.length + (encodeOptions6 tl).length := by
      simp
      omega
    rw [parse_cons _ _ c v.length]
    · have hdrop : (pre ++ ((c / 256 % 256) :: (c % 256) :: (v.length / 256 % 256) ::
          (v.length % 256) :: (v ++ encodeOptions6 tl))).drop (pre.length + 4)
          = v ++ encodeOptions6 tl := by
        have hsplit : pre ++ ((c / 256 % 256) :: (c % 256) :: (v.length / 256 % 256) ::
            (v.length % 256) :: (v ++ encodeOptions6 tl))
            = (pre ++ [c / 256 % 256, c % 256, v.length / 256 % 256, v.length % 256])
              ++ (v ++ encodeOptions6 tl) := by
          simp
        rw [hsplit, show pre.length + 4
            = (pre ++ [c / 256 % 256, c % 256, v.length / 256 % 256, v.length % 256]).length
            by simp, List.drop_left]
      rw [hdrop, List.take_left]
      have hstep : pre ++ ((c / 256 % 256) :: (c % 256) :: (v.length / 256 % 256) ::
          (v.length % 256) :: (v ++ encodeOptions6 tl))
          = (pre ++ ((c / 256 % 256) :: (c % 256) :: (v.length / 256 % 256) ::
              (v.length % 256) :: v)) ++ encodeOptions6 tl := by
        simp
      have hoff : pre.length + 4 + v.length
          = (pre ++ ((c / 256 % 256) :: (c % 256) :: (v.length / 256 % 256) ::
              (v.length % 256) :: v)).length := by
        simp
        omega
      rw [hstep, hoff,
        ih (pre ++ ((c / 256 % 256) :: (c % 256) :: (v.length / 256 % 256) ::
          (v.length % 256) :: v))
          (fun p hp => hc p (List.mem_cons_of_mem _ hp))
          (fun p hp => hv p (List.mem_cons_of_mem _ hp))]
    · have hg0 := hg 0
      simp only [Nat.add_zero] at hg0
      rw [hg0, hg 1]
      simp [List.getD]
      omega
    · rw [hg 2, hg 3]
      simp [List.getD]
      omega
    · rw [hlen]
      omega
    · rw [hlen]
      omega
    · rw [hlen]
      omega

/-- Shape of a hint-free message with no server identifier (DISCOVER-position
SOLICIT without prefix hint): header, client id, elapsed time, option
request. -/
theorem create_msg_noHint_none (mt : Nat) (tid duid : List Nat) (iaId : Nat)
    (hmt : mt < 256) (hd : duid.length < 65536) :
    create_dhcpv6_msg mt tid duid none none iaId
      = .ok ((mt :: tid) ++ encodeOptions6 [(1, duid), (8, [0, 0]), (6, [0, 23, 0, 24])]) := by
  simp [create_dhcpv6_msg, packB, packH, hmt, hd, encodeOptions6, pack16,
    exBind_ok, exPure]

/-- Shape of a hint-free message carrying a server identifier (the RELEASE
built by `send_release`). -/
theorem create_msg_noHint_some (mt : Nat) (tid duid sd : List Nat) (iaId : Nat)
    (hmt : mt < 256) (hd : duid.length < 65536) (hs : sd.length < 65536) :
    create_dhcpv6_msg mt tid duid none (some sd) iaId
      = .ok ((mt :: tid) ++
          encodeOptions6 [(1, duid), (2, sd), (8, [0, 0]), (6, [0, 23, 0, 24])]) := by
  simp [create_dhcpv6_msg, packB, packH, hmt, hd, hs, encodeOptions6, pack16,
    exBind_ok, exPure]

/-- Encoding any SOLICIT or REQUEST with a prefix hint reaches
`struct.pack('!HHBBI', 26, 25, 3600, 7200, 64)` and raises `struct.error`:
3600 does not fit the one-byte `B` field. -/
theorem create_msg_hint_error (mt : Nat) (tid duid ph : List Nat)
    (sdo : Option (List Nat)) (iaId : Nat) (hmt : mt = 1 ∨ mt = 3)
    (hd : duid.length < 65536) (hsd : ∀ s ∈ sdo, s.length < 65536)
    (hia : iaId < 4294967296) :
    create_dhcpv6_msg mt tid duid (some ph) sdo iaId
      = .error "ubyte format requires 0 <= number <= 255" := by
  cases sdo with
  | none =>
    rcases hmt with h | h <;> subst h <;>
      simp [create_dhcpv6_msg, packB, packH, packI, hd, hia, exBind_ok, exBind_err, exPure]
  | some sd =>
    have hs : sd.length < 65536 := hsd sd rfl
    rcases hmt with h | h <;> subst h <;>
      simp [create_dhcpv6_msg, packB, packH, packI, hd, hs, hia,
        exBind_ok, exBind_err, exPure]

end V6

namespace V4

theorem scan_crash_at_type (data : List Nat) (expected index : Nat)
    (h : data[index]? = some 53) (h2 : data[index + 2]? = none) :
    scanOptions data expected index = .crash := by
  unfold scanOptions
  split
  · simp_all
  · rename_i t heq
    rw [h] at heq
    injection heq with ht
    subst ht
    rw [h2]
    simp

theorem wait_cons_skip (xid e : Nat) (d a : List Nat) (rest : List Dgram4)
    (hx : (d.drop 4).take 4 ≠ pack32 xid) :
    wait_for_msg xid e ((d, a) :: rest) = wait_for_msg xid e rest := by
  simp only [wait_for_msg]
  rw [if_neg (by simpa using hx)]

theorem wait_cons_found (xid e : Nat) (d a : List Nat) (rest : List Dgram4)
    (hx : (d.drop 4).take 4 = pack32 xid) (hs : scanOptions d e 240 = .found) :
    wait_for_msg xid e ((d, a) :: rest) = .matched d a rest := by
  simp only [wait_for_msg]
  rw [hx]
  simp [hs]

theorem wait_cons_noMatch (xid e : Nat) (d a : List Nat) (rest : List Dgram4)
    (hx : (d.drop 4).take 4 = pack32 xid) (hs : scanOptions d e 240 = .noMatch) :
    wait_for_msg xid e ((d, a) :: rest) = wait_for_msg xid e rest := by
  simp only [wait_for_msg]
  rw [hx]
  simp [hs]

theorem wait_cons_crash (xid e : Nat) (d a : List Nat) (rest : List Dgram4)
    (hx : (d.drop 4).take 4 = pack32 xid) (hs : scanOptions d e 240 = .crash) :
    wait_for_msg xid e ((d, a) :: rest) = .crash := by
  simp only [wait_for_msg]
  rw [hx]
  simp [hs]

end V4

theorem fixedBytes_eq (n : Nat) (s : List Nat) (h : s.length = n) :
    fixedBytes n s = s := by
  subst h
  simpa [fixedBytes] using List.take_left s (List.replicate s.length 0)

namespace V4

/-- Bytes 4..8 of any BOOTP frame (with anything appended) are the packed
transaction id. -/
theorem bootp_xid_slice (op y : Nat) (ch tail : List Nat) (xid : Nat) :
    ((build_bootp op y ch xid ++ tail).drop 4).take 4 = pack32 xid := rfl

/-- The DISCOVER packet is the BOOTP frame followed by the encoded options
53 (type 1), 61 (hardware type 1 and the mac), 55 (parameter request list),
and the end tag. -/
theorem send_dhcp_discover_shape (mac : List Nat) (xid : Nat) (hm : mac.length = 6) :
    send_dhcp 1 mac xid none none
      = build_bootp 1 0 mac xid ++
        (encodeOptions [(53, [1]), (61, 1 :: mac), (55, [3, 1, 6])] ++ [0xff]) := by
  simp [send_dhcp, encodeOptions, hm]

/-- The RELEASE packet is the BOOTP frame followed by the encoded options
53 (type 7), 61, 50 (released address), 54 (server identifier), and the
end tag. -/
theorem send_release_shape (mac : List Nat) (xid : Nat) (ip sip : List Nat)
    (hm : mac.length = 6) (hip : ip.length = 4) (hsip : sip.length = 4) :
    (send_release mac xid ip sip).1
      = build_bootp 1 0 mac xid ++
        (encodeOptions [(53, [7]), (61, 1 :: mac), (50, ip), (54, sip)] ++ [0xff]) := by
  simp [send_release, encodeOptions, hm, hip, hsip]

end V4

namespace V6

/-- Parsing a v6 message (1-byte type, 3-byte transaction id, then a
well-formed option stream) from offset 4 recovers the options. -/
theorem parse_header4 (tid : List Nat) (opts : List (Nat × List Nat)) (mt : Nat)
    (ht : tid.length = 3) (hc : ∀ p ∈ opts, p.1 < 65536)
    (hv : ∀ p ∈ opts, p.2.length < 65536) :
    parse_dhcpv6_options ((mt :: tid) ++ encodeOptions6 opts) 4 = opts := by
  have h4 : (4 : Nat) = ((mt :: tid) : List Nat).length := by simp [ht]
  rw [h4, parse_encode opts (mt :: tid) hc hv]

theorem wait6_cons_skip (tid : List Nat) (e : Nat) (d : List Nat) (a : String)
    (rest : List Dgram6)
    (h : d.length < 4 ∨ ¬ ((d.drop 1).take 3 = tid ∧ d.headD 0 = e)) :
    wait_for_dhcpv6_response tid e ((d, a) :: rest)
      = wait_for_dhcpv6_response tid e rest := by
  simp only [wait_for_dhcpv6_response]
  by_cases hl : d.length < 4
  · rw [if_pos hl]
  · rw [if_neg hl, if_neg ?_]
    rcases h with h | h
    · exact absurd h hl
    · simpa [Bool.and_eq_true, beq_iff_eq] using h

theorem wait6_cons_matched (tid : List Nat) (e : Nat) (d : List Nat) (a : String)
    (rest : List Dgram6) (hl : ¬ d.length < 4)
    (hm : (d.drop 1).take 3 = tid ∧ d.headD 0 = e) :
    wait_for_dhcpv6_response tid e ((d, a) :: rest)
      = .matched d a (parse_dhcpv6_options d 4) rest := by
  simp only [wait_for_dhcpv6_response]
  rw [if_neg hl, if_pos (by simp only [Bool.and_eq_true, beq_iff_eq]; exact hm)]

end V6

/-! ## Claims -/

/-- C1: the claim states that scanning a received datagram's option stream
never raises an unrecovered fault, even when an entry's declared length
exceeds the remaining buffer, for every input byte string.  The v4 scan in
`wait_for_msg` violates this: the 242-byte datagram below has the waiting
transaction id (0) at bytes 4..8 and, at option offset 240, a tag-53 entry
declaring length 1 with no value bytes left in the buffer.  Python evaluates
`data[index] == 53 and data[index+2] == expected_type` and the access
`data[242]` raises an `IndexError` that escapes `wait_for_msg` (only
`socket.timeout` is caught), instead of being treated as "expected type not
found".  (The v6 parser `parse_dhcpv6_options` does bound-check and is total
by construction in this embedding.) -/
theorem c1_wait_for_msg_truncated_option_crash :
    V4.wait_for_msg 0 2 [(List.replicate 240 0 ++ [53, 1], [10, 0, 0, 2])]
      = V4.Wait4Result.crash := by
  have h0 : (List.replicate 240 (0 : Nat) ++ [53, 1])[240]? = some 53 :=
    (getElem?_append_len (List.replicate 240 (0 : Nat)) [53, 1] 0).trans (by rfl)
  have h2 : (List.replicate 240 (0 : Nat) ++ [53, 1])[242]? = none :=
    (getElem?_append_len (List.replicate 240 (0 : Nat)) [53, 1] 2).trans (by rfl)
  have hslice : ((List.replicate 240 (0 : Nat) ++ [53, 1]).drop 4).take 4 = pack32 0 := by
    rw [List.drop_append_of_le_length (by simp), List.drop_replicate,
      List.take_append_of_le_length (by simp), List.take_replicate]
    decide
  exact V4.wait_cons_crash 0 2 _ _ _ hslice (V4.scan_crash_at_type _ _ _ h0 h2)

/-- C2: the claim states that every SOLICIT or REQUEST encoded with a prefix
hint carries an IA_PD option whose nested IA_Prefix sub-option has a 4-byte
preferred lifetime, a 4-byte valid lifetime, a 1-byte prefix length and the
16-byte prefix.  The encoder instead packs the sub-option with format
`'!HHBBI'`, feeding `preferred = 3600` to a one-byte `B` field, so
`struct.pack` raises `struct.error` and no message is produced at all —
for every transaction id, DUID, prefix hint and association id. -/
theorem c2_create_dhcpv6_msg_prefix_hint_struct_error (tid duid ph sduid : List Nat)
    (iaId : Nat) (hd : duid.length < 65536) (hs : sduid.length < 65536)
    (hia : iaId < 4294967296) :
    V6.create_dhcpv6_msg 1 tid duid (some ph) none iaId
      = .error "ubyte format requires 0 <= number <= 255"
    ∧ V6.create_dhcpv6_msg 3 tid duid (some ph) (some sduid) iaId
      = .error "ubyte format requires 0 <= number <= 255" := by
  constructor
  · exact V6.create_msg_hint_error 1 tid duid ph none iaId (Or.inl rfl) hd
      (fun s hs' => by simp at hs') hia
  · exact V6.create_msg_hint_error 3 tid duid ph (some sduid) iaId (Or.inr rfl) hd
      (fun s hs' => by simp at hs'; simpa [hs'] using hs) hia

theorem c2_witness :
    V6.create_dhcpv6_msg 1 [9, 8, 7] [0, 1] (some V6.prefixHintBytes) none 5
      = .error "ubyte format requires 0 <= number <= 255"
    ∧ V6.create_dhcpv6_msg 3 [9, 8, 7] [0, 1] (some V6.prefixHintBytes) (some [0, 2]) 5
      = .error "ubyte format requires 0 <= number <= 255" :=
  c2_create_dhcpv6_msg_prefix_hint_struct_error [9, 8, 7] [0, 1] V6.prefixHintBytes
    [0, 2] 5 (by decide) (by decide) (by decide)

/-- C3: the claim states that every transaction run to a terminal state
increments exactly one of the shared counters exactly once.  Every v6
transaction sends its first SOLICIT with the hard-coded prefix hint, so
`create_dhcpv6_msg` raises `struct.error` (see C2) before any counter is
touched: `dhcpv6_client_logic` terminates abnormally with *neither* counter
incremented and nothing appended to the registry, for every DUID, transaction
id, association ids, datagram queue and starting state. -/
theorem c3_dhcpv6_client_logic_increments_nothing (duid tid : List Nat)
    (iaId1 iaId2 : Nat) (queue : List V6.Dgram6) (stats : Stats)
    (clients : List V6.Lease) (hd : duid.length < 65536) (hia : iaId1 < 4294967296) :
    V6.dhcpv6_client_logic duid tid iaId1 iaId2 queue stats clients
      = (.crashed "ubyte format requires 0 <= number <= 255", stats, clients) := by
  unfold V6.dhcpv6_client_logic
  rw [V6.create_msg_hint_error 1 tid duid V6.prefixHintBytes none iaId1 (Or.inl rfl) hd
    (fun s hs' => by simp at hs') hia]

theorem c3_witness :
    V6.dhcpv6_client_logic [0, 1] [9, 8, 7] 5 6 [] ⟨0, 0⟩ []
      = (.crashed "ubyte format requires 0 <= number <= 255", ⟨0, 0⟩, []) :=
  c3_dhcpv6_client_logic_increments_nothing [0, 1] [9, 8, 7] 5 6 [] ⟨0, 0⟩ []
    (by decide) (by decide)

/-- A concrete lease for the C4 counterexample. -/
def lease4c : V4.Lease := ⟨[2, 0, 0, 0, 0, 1], 7, [10, 0, 0, 5], [10, 0, 0, 1]⟩

/-- C4 counterexample: the claim states that invoking the release path twice
produces release messages for each recorded lease at most once because the
registry is drained.  The release loop `for mac, xid, ip, srv in clients`
only iterates `clients` and never removes entries, so a second invocation on
the registry state left by the first re-sends every release: for a registry
holding one lease, the two invocations together emit its release message
twice. -/
theorem c4_release_twice_counterexample :
    ¬ (((V4.release_pass [lease4c]).1 ++
          (V4.release_pass (V4.release_pass [lease4c]).2).1).count
        (V4.send_release lease4c.mac lease4c.xid lease4c.ip lease4c.server_ip) ≤ 1) := by
  decide

/-- C4 amended: each invocation of the release loop sends exactly one release
per recorded lease and leaves the registry unchanged (iterated, not drained);
consequently two consecutive invocations emit every message twice as often as
one invocation, rather than at most once per lease. -/
theorem c4_release_path_iterates_registry (r4 : List V4.Lease) (r6 : List V6.Lease) :
    (V4.release_pass r4).2 = r4 ∧ (V6.release_pass r6).2 = r6
    ∧ (∀ m, ((V4.release_pass r4).1 ++ (V4.release_pass (V4.release_pass r4).2).1).count m
          = 2 * ((V4.release_pass r4).1.count m))
    ∧ (∀ m, ((V6.release_pass r6).1 ++ (V6.release_pass (V6.release_pass r6).2).1).count m
          = 2 * ((V6.release_pass r6).1.count m)) := by
  refine ⟨rfl, rfl, fun m => ?_, fun m => ?_⟩ <;>
    simp [V4.release_pass, V6.release_pass, List.count_append] <;> omega

/-- C8 counterexample: the claim states that non-SOLICIT messages are sent to
the server address learned from the earlier advertisement.  `send_dhcpv6`
has no access to a learned address: it sends every non-SOLICIT message to the
module-level configured `DHCPV6_SERVER_IP` (default `fe80::2`).  With the
default configuration and an advertisement received from `fe80::abcd`, the
destination the code picks differs from the one the claim requires. -/
theorem c8_send_dest_counterexample :
    V6.send_dhcpv6_dest V6.defaultServerIp 3 ≠ V6.specSendDest "fe80::abcd" 3 := by
  decide

/-- C8 amended: every message built by `send_dhcpv6` goes to port 547; a
SOLICIT (type 1) goes to the all-DHCP-agents multicast address `ff02::1:2`,
and every other message type goes to the *configured* server address
(`DHCPV6_SERVER_IP` environment value), not to a learned one. -/
theorem c8_send_dhcpv6_destination (cfg : String) (mt : Nat) (duid tid : List Nat)
    (sd ph : Option (List Nat)) (iaId : Nat) (msg : List Nat) (dest : String × Nat)
    (h : V6.send_dhcpv6 cfg mt duid tid sd ph iaId = .ok (msg, dest)) :
    dest.2 = 547 ∧ (mt = 1 → dest.1 = "ff02::1:2") ∧ (mt ≠ 1 → dest.1 = cfg) := by
  unfold V6.send_dhcpv6 at h
  cases hc : V6.create_dhcpv6_msg mt tid duid ph sd iaId with
  | error e => rw [hc] at h; simp [V6.exBind_err] at h
  | ok m =>
    rw [hc] at h
    simp only [V6.exBind_ok, V6.exPure, Except.ok.injEq, Prod.mk.injEq] at h
    obtain ⟨-, hdest⟩ := h
    subst hdest
    unfold V6.send_dhcpv6_dest
    by_cases h1 : mt = 1 <;> simp [h1]

/-- C5: encoding a DISCOVER (v4) or a SOLICIT (v6) and decoding the result
with the matching decoder recovers exactly the transaction id and the client
identity, for every 6-byte mac / in-range xid and every DUID / 3-byte
transaction id.  v4: the xid is the 4-byte big-endian field at offset 4 and
the identity is the value of option 61 (hardware-type byte then the mac); the
option-value extraction follows the spec's tag/len/value scan (`find_option`),
as the source only ships the tag-53 scan.  v6: the SOLICIT here is the one
`create_dhcpv6_msg` actually produces, i.e. without a prefix hint (a hinted
SOLICIT raises before producing bytes, see C2); the transaction id is bytes
1..4 and the identity is option 1 of `parse_dhcpv6_options`. -/
theorem c5_discover_solicit_roundtrip (mac : List Nat) (xid : Nat)
    (duid tid : List Nat) (iaId : Nat) (hm : mac.length = 6) (hx : xid < 4294967296)
    (hd : duid.length < 65536) (ht : tid.length = 3) :
    (unpack32 (((V4.send_dhcp 1 mac xid none none).drop 4).take 4) = xid
      ∧ V4.find_option (V4.send_dhcp 1 mac xid none none) 61 240 = some (1 :: mac))
    ∧ ∃ m, V6.create_dhcpv6_msg 1 tid duid none none iaId = Except.ok m
        ∧ (m.drop 1).take 3 = tid
        ∧ V6.dictGet (V6.parse_dhcpv6_options m 4) 1 = some duid := by
  refine ⟨⟨?_, ?_⟩, ?_⟩
  · simp only [V4.send_dhcp]
    rw [V4.bootp_xid_slice]
    exact unpack32_pack32 xid hx
  · rw [V4.send_dhcp_discover_shape mac xid hm,
      show (240 : Nat) = (V4.build_bootp 1 0 mac xid).length from
        (V4.build_bootp_length 1 0 mac xid hm).symm,
      V4.find_option_encode [(53, [1]), (61, 1 :: mac), (55, [3, 1, 6])]
        (V4.build_bootp 1 0 mac xid) 61
        (by intro p hp; simp at hp; rcases hp with rfl | rfl | rfl <;> norm_num)]
    simp [List.find?]
  · refine ⟨_, V6.create_msg_noHint_none 1 tid duid iaId (by norm_num) hd, ?_, ?_⟩
    · simp only [List.cons_append, List.drop_succ_cons, List.drop_zero]
      rw [← ht, List.take_left]
    · rw [V6.parse_header4 tid [(1, duid), (8, [0, 0]), (6, [0, 23, 0, 24])] 1 ht
        (by intro p hp; simp at hp; rcases hp with rfl | rfl | rfl <;> norm_num)
        (by intro p hp; simp at hp; rcases hp with rfl | rfl | rfl <;> simp [hd])]
      simp [V6.dictGet]

theorem c5_witness :
    (unpack32 (((V4.send_dhcp 1 [2, 0, 1, 2, 3, 4] 0x11223344 none none).drop 4).take 4)
        = 0x11223344
      ∧ V4.find_option (V4.send_dhcp 1 [2, 0, 1, 2, 3, 4] 0x11223344 none none) 61 240
          = some (1 :: [2, 0, 1, 2, 3, 4]))
    ∧ ∃ m, V6.create_dhcpv6_msg 1 [9, 8, 7] [0, 1, 0, 1] none none 5 = Except.ok m
        ∧ (m.drop 1).take 3 = [9, 8, 7]
        ∧ V6.dictGet (V6.parse_dhcpv6_options m 4) 1 = some [0, 1, 0, 1] :=
  c5_discover_solicit_roundtrip [2, 0, 1, 2, 3, 4] 0x11223344 [0, 1, 0, 1] [9, 8, 7] 5
    (by decide) (by decide) (by decide) (by decide)

/-- C6: a received datagram whose transaction id does not match the waiting
transaction (or, for v6, whose message type is not the expected one) is never
returned as a match: the receive loops skip it and behave exactly as if it
had not arrived, and any datagram they do return satisfies the match
condition (v4: bytes 4..8 equal the packed xid and the option scan found tag
53 with the expected value; v6: bytes 1..4 equal the transaction id and byte
0 is the expected type). -/
theorem c6_wait_mismatch_never_matched :
    (∀ (xid e : Nat) (d a : List Nat) (rest : List V4.Dgram4),
        (d.drop 4).take 4 ≠ pack32 xid →
        V4.wait_for_msg xid e ((d, a) :: rest) = V4.wait_for_msg xid e rest)
    ∧ (∀ (xid e : Nat) (queue : List V4.Dgram4),
        ∀ (md ma : List Nat) (mrest : List V4.Dgram4),
        V4.wait_for_msg xid e queue = .matched md ma mrest →
        (md.drop 4).take 4 = pack32 xid ∧ V4.scanOptions md e 240 = .found)
    ∧ (∀ (tid : List Nat) (e : Nat) (d : List Nat) (a : String) (rest : List V6.Dgram6),
        d.length < 4 ∨ ¬ ((d.drop 1).take 3 = tid ∧ d.headD 0 = e) →
        V6.wait_for_dhcpv6_response tid e ((d, a) :: rest)
          = V6.wait_for_dhcpv6_response tid e rest)
    ∧ (∀ (tid : List Nat) (e : Nat) (queue : List V6.Dgram6),
        ∀ (md : List Nat) (ma : String) (mopts : List (Nat × List Nat))
          (mrest : List V6.Dgram6),
        V6.wait_for_dhcpv6_response tid e queue = .matched md ma mopts mrest →
        (md.drop 1).take 3 = tid ∧ md.headD 0 = e) := by
  refine ⟨V4.wait_cons_skip, ?_, V6.wait6_cons_skip, ?_⟩
  · intro xid e queue
    induction queue with
    | nil => intro md ma mrest h; simp [V4.wait_for_msg] at h
    | cons hd tl ih =>
      obtain ⟨d, a⟩ := hd
      intro md ma mrest h
      by_cases hx : (d.drop 4).take 4 = pack32 xid
      · cases hs : V4.scanOptions d e 240 with
        | found =>
          rw [V4.wait_cons_found xid e d a tl hx hs] at h
          injection h with h1 h2 h3
          subst h1
          exact ⟨hx, hs⟩
        | noMatch =>
          rw [V4.wait_cons_noMatch xid e d a tl hx hs] at h
          exact ih md ma mrest h
        | crash =>
          rw [V4.wait_cons_crash xid e d a tl hx hs] at h
          simp at h
      · rw [V4.wait_cons_skip xid e d a tl hx] at h
        exact ih md ma mrest h
  · intro tid e queue
    induction queue with
    | nil => intro md ma mopts mrest h; simp [V6.wait_for_dhcpv6_response] at h
    | cons hd tl ih =>
      obtain ⟨d, a⟩ := hd
      intro md ma mopts mrest h
      by_cases hl : d.length < 4
      · rw [V6.wait6_cons_skip tid e d a tl (Or.inl hl)] at h
        exact ih md ma mopts mrest h
      · by_cases hc : (d.drop 1).take 3 = tid ∧ d.headD 0 = e
        · rw [V6.wait6_cons_matched tid e d a tl hl hc] at h
          injection h with h1 h2 h3 h4
          subst h1
          exact hc
        · rw [V6.wait6_cons_skip tid e d a tl (Or.inr hc)] at h
          exact ih md ma mopts mrest h

theorem c6_witness :
    V4.wait_for_msg 5 2 [(List.replicate 8 9, [1, 2, 3, 4])] = V4.wait_for_msg 5 2 []
    ∧ V6.wait_for_dhcpv6_response [1, 2, 3] 2 [([7, 7, 7, 7], "x")]
        = V6.wait_for_dhcpv6_response [1, 2, 3] 2 [] :=
  ⟨c6_wait_mismatch_never_matched.1 5 2 (List.replicate 8 9) [1, 2, 3, 4] []
      (by decide),
   c6_wait_mismatch_never_matched.2.2.1 [1, 2, 3] 2 [7, 7, 7, 7] "x" []
      (by decide)⟩

/-- A concrete lease holding a delegated prefix, for the C7 counterexample. -/
def lease6c : V6.Lease :=
  ⟨[0, 1], [9, 8, 7], [0, 2], some (V6.prefixHintBytes, 64), "fe80::2"⟩

/-- C7 counterexample: the claim states that the v6 RELEASE message carries
the lease's assigned value (the delegated prefix).  `send_release` builds the
RELEASE with `create_dhcpv6_msg(8, tid, duid, server_duid=...)` — no prefix
hint and a message type outside {SOLICIT, REQUEST} — so the message contains
no IA_PD option (code 25, the only prefix carrier) at all: for this lease
holding delegated prefix `fd00:1234:5678::/64`, the RELEASE sent to its
server omits the prefix entirely (it appears only in the log line). -/
theorem c7_v6_release_lacks_prefix_counterexample :
    ∃ m : List Nat, V6.send_release lease6c = some (m, "fe80::2", 547)
      ∧ V6.dictGet (V6.parse_dhcpv6_options m 4) 25 = none
      ∧ lease6c.delegated = some (V6.prefixHintBytes, 64) := by
  refine ⟨(8 :: [9, 8, 7]) ++
    V6.encodeOptions6 [(1, [0, 1]), (2, [0, 2]), (8, [0, 0]), (6, [0, 23, 0, 24])],
    by rfl, ?_, rfl⟩
  rw [V6.parse_header4 [9, 8, 7]
    [(1, [0, 1]), (2, [0, 2]), (8, [0, 0]), (6, [0, 23, 0, 24])] 8
    (by decide) (by decide) (by decide)]
  decide

/-- C7 amended: the v4 RELEASE carries the lease's identity (option 61), its
transaction id (offset 4), its assigned address (option 50) and the server
identifier (option 54), and is sent to the lease's server on port 67.  The
v6 RELEASE carries the identity (option 1), the transaction id (bytes 1..4)
and the server DUID (option 2) and is sent to the lease's server on port
547, but does *not* carry the delegated prefix: its full option list is
client-id, server-id, elapsed-time, option-request — no IA_PD (option 25). -/
theorem c7_release_message_contents (mac ip sip : List Nat) (xid : Nat)
    (duid tid sduid : List Nat) (deleg : Option (List Nat × Nat)) (srv : String)
    (hm : mac.length = 6) (hip : ip.length = 4) (hsip : sip.length = 4)
    (hx : xid < 4294967296) (ht : tid.length = 3)
    (hd : duid.length < 65536) (hs : sduid.length < 65536) :
    (unpack32 ((((V4.send_release mac xid ip sip).1).drop 4).take 4) = xid
      ∧ V4.find_option (V4.send_release mac xid ip sip).1 53 240 = some [7]
      ∧ V4.find_option (V4.send_release mac xid ip sip).1 61 240 = some (1 :: mac)
      ∧ V4.find_option (V4.send_release mac xid ip sip).1 50 240 = some ip
      ∧ V4.find_option (V4.send_release mac xid ip sip).1 54 240 = some sip
      ∧ (V4.send_release mac xid ip sip).2 = (sip, 67))
    ∧ ∃ m, V6.send_release ⟨duid, tid, sduid, deleg, srv⟩ = some (m, srv, 547)
        ∧ m.headD 0 = 8
        ∧ (m.drop 1).take 3 = tid
        ∧ V6.parse_dhcpv6_options m 4
            = [(1, duid), (2, sduid), (8, [0, 0]), (6, [0, 23, 0, 24])]
        ∧ V6.dictGet (V6.parse_dhcpv6_options m 4) 25 = none := by
  have hne : ∀ p ∈ [((53 : Nat), [(7 : Nat)]), (61, 1 :: mac), (50, ip), (54, sip)],
      p.1 ≠ 0xff := by
    intro p hp
    simp at hp
    rcases hp with rfl | rfl | rfl | rfl <;> norm_num
  have hshape := V4.send_release_shape mac xid ip sip hm hip hsip
  have hidx : (240 : Nat) = (V4.build_bootp 1 0 mac xid).length :=
    (V4.build_bootp_length 1 0 mac xid hm).symm
  refine ⟨⟨?_, ?_, ?_, ?_, ?_, ?_⟩, ?_⟩
  · simp only [V4.send_release]
    rw [V4.bootp_xid_slice]
    exact unpack32_pack32 xid hx
  · rw [hshape, hidx, V4.find_option_encode _ _ _ hne]
    simp [List.find?]
  · rw [hshape, hidx, V4.find_option_encode _ _ _ hne]
    simp [List.find?]
  · rw [hshape, hidx, V4.find_option_encode _ _ _ hne]
    simp [List.find?]
  · rw [hshape, hidx, V4.find_option_encode _ _ _ hne]
    simp [List.find?]
  · simp [V4.send_release]
  · refine ⟨(8 :: tid) ++ V6.encodeOptions6
      [(1, duid), (2, sduid), (8, [0, 0]), (6, [0, 23, 0, 24])], ?_, ?_, ?_, ?_, ?_⟩
    · simp only [V6.send_release]
      rw [V6.create_msg_noHint_some 8 tid duid sduid 0 (by norm_num) hd hs]
    · simp
    · simp only [List.cons_append, List.drop_succ_cons, List.drop_zero]
      rw [← ht, List.take_left]
    · exact V6.parse_header4 tid _ 8 ht
        (by intro p hp; simp at hp; rcases hp with rfl | rfl | rfl | rfl <;> norm_num)
        (by intro p hp; simp at hp
            rcases hp with rfl | rfl | rfl | rfl <;> simp [hd, hs])
    · rw [V6.parse_header4 tid _ 8 ht
        (by intro p hp; simp at hp; rcases hp with rfl | rfl | rfl | rfl <;> norm_num)
        (by intro p hp; simp at hp
            rcases hp with rfl | rfl | rfl | rfl <;> simp [hd, hs])]
      simp [V6.dictGet]

theorem c7_witness :
    (unpack32 ((((V4.send_release [2, 0, 0, 0, 0, 1] 7 [10, 0, 0, 5] [10, 0, 0, 9]).1).drop 4).take 4) = 7
      ∧ V4.find_option (V4.send_release [2, 0, 0, 0, 0, 1] 7 [10, 0, 0, 5] [10, 0, 0, 9]).1 53 240 = some [7]
      ∧ V4.find_option (V4.send_release [2, 0, 0, 0, 0, 1] 7 [10, 0, 0, 5] [10, 0, 0, 9]).1 61 240 = some (1 :: [2, 0, 0, 0, 0, 1])
      ∧ V4.find_option (V4.send_release [2, 0, 0, 0, 0, 1] 7 [10, 0, 0, 5] [10, 0, 0, 9]).1 50 240 = some [10, 0, 0, 5]
      ∧ V4.find_option (V4.send_release [2, 0, 0, 0, 0, 1] 7 [10, 0, 0, 5] [10, 0, 0, 9]).1 54 240 = some [10, 0, 0, 9]
      ∧ (V4.send_release [2, 0, 0, 0, 0, 1] 7 [10, 0, 0, 5] [10, 0, 0, 9]).2 = ([10, 0, 0, 9], 67))
    ∧ ∃ m, V6.send_release ⟨[0, 3], [1, 2, 3], [0, 4], none, "fe80::9"⟩ = some (m, "fe80::9", 547)
        ∧ m.headD 0 = 8
        ∧ (m.drop 1).take 3 = [1, 2, 3]
        ∧ V6.parse_dhcpv6_options m 4
            = [(1, [0, 3]), (2, [0, 4]), (8, [0, 0]), (6, [0, 23, 0, 24])]
        ∧ V6.dictGet (V6.parse_dhcpv6_options m 4) 25 = none :=
  c7_release_message_contents [2, 0, 0, 0, 0, 1] [10, 0, 0, 5] [10, 0, 0, 9] 7
    [0, 3] [1, 2, 3] [0, 4] none "fe80::9"
    (by decide) (by decide) (by decide) (by decide) (by decide) (by decide) (by decide)

theorem c8_witness :
    ((("fe80::2", 547) : String × Nat).2 = 547
      ∧ ((3 : Nat) = 1 → (("fe80::2", 547) : String × Nat).1 = "ff02::1:2")
      ∧ ((3 : Nat) ≠ 1 → (("fe80::2", 547) : String × Nat).1 = "fe80::2")) :=
  c8_send_dhcpv6_destination "fe80::2" 3 [0, 1] [9, 8, 7] (some [0, 2]) none 0
    [3, 9, 8, 7, 0, 1, 0, 2, 0, 1, 0, 2, 0, 2, 0, 2, 0, 8, 0, 2, 0, 0, 0, 6, 0, 4, 0, 23, 0, 24]
    ("fe80::2", 547) (by rfl)

/-- C9: the readiness gate of both `__main__` blocks.  If every probe attempt
inside the deadline window fails, the process exits with status 1 and zero
client transactions are launched; if some attempt succeeds, the orchestrated
run starts (every supplied transaction is launched).  Wall-clock bookkeeping
(`HEALTH_CHECK_TIMEOUT`, the 5-second sleeps) is abstracted into the finite
list of attempt outcomes that fit the window. -/
theorem c9_readiness_probe_gate (attempts : List Bool) (envs4 : List V4.ClientEnv)
    (envs6 : List V6.ClientEnv) :
    ((∀ a ∈ attempts, a = false) →
      V4.main true attempts envs4 = (.exited 1, 0, ⟨0, 0⟩)
      ∧ V6.main true attempts envs6 = (.exited 1, 0, ⟨0, 0⟩))
    ∧ (healthLoop attempts = true →
      (V4.main true attempts envs4).2.1 = envs4.length
      ∧ (V6.main true attempts envs6).2.1 = envs6.length) := by
  constructor
  · intro hall
    have hfalse : healthLoop attempts = false := by
      rw [healthLoop_eq_any, List.any_eq_false]
      intro a ha
      simpa using hall a ha
    constructor <;> simp [V4.main, V6.main, hfalse]
  · intro htrue
    constructor
    · rcases h4 : V4.run_clients envs4 with ⟨crashed, stats', clients'⟩
      cases crashed <;> simp [V4.main, htrue, h4]
    · rcases h6 : V6.run_clients envs6 with ⟨crashed, stats', clients'⟩
      cases crashed <;> simp [V6.main, htrue, h6]

theorem c9_witness :
    (V4.main true [false] [] = (.exited 1, 0, ⟨0, 0⟩)
      ∧ V6.main true [false] [] = (.exited 1, 0, ⟨0, 0⟩))
    ∧ ((V4.main true [true] [([2, 0, 0, 0, 0, 1], 5, [])]).2.1 = 1
      ∧ (V6.main true [true] [([0, 1], [9, 8, 7], 1, 1, [])]).2.1 = 1) :=
  ⟨(c9_readiness_probe_gate [false] [] []).1 (by decide),
   (c9_readiness_probe_gate [true] [([2, 0, 0, 0, 0, 1], 5, [])]
      [([0, 1], [9, 8, 7], 1, 1, [])]).2 rfl⟩

/-- C10 counterexample: the claim states that a non-zero exit occurs only on
readiness-probe failure or the startup privilege check.  Running the v6
simulator as root with a succeeding probe, every launched transaction raises
`struct.error` while encoding its prefix-hinted SOLICIT (see C2); the
exception escapes `asyncio.run` (only `KeyboardInterrupt` is handled),
`handle_exit` never runs, and CPython terminates with status 1 — a non-zero
exit with the probe succeeded and the privilege check passed. -/
theorem c10_uncaught_exit_despite_probe_ok :
    exitCodeOf (V6.main true [true] [([0, 1], [9, 8, 7], 1, 1, [])]).1 = 1
    ∧ healthLoop [true] = true
    ∧ (V6.main true [true] [([0, 1], [9, 8, 7], 1, 1, [])]).1
        ≠ ProcOutcome.exited 0 := by
  refine ⟨?_, rfl, ?_⟩ <;> decide

/-- C10 amended: whenever `handle_exit` runs it terminates the process with
status 0, for every registry and every value of the counters (including runs
where every transaction failed); and a run that does not exit 0 failed the
privilege check, failed the readiness probe, or had an uncaught exception
escape a client transaction (v6's prefix-hint encoder error, v4's
malformed-option `IndexError`). -/
theorem c10_handle_exit_zero_status (probe : List Bool) (envs4 : List V4.ClientEnv)
    (envs6 : List V6.ClientEnv) (euid4 euid6 : Bool)
    (clients4 : List V4.Lease) (clients6 : List V6.Lease) (stats : Stats) :
    ((V4.handle_exit clients4 stats).2.2 = 0 ∧ (V6.handle_exit clients6 stats).2.2 = 0)
    ∧ (healthLoop probe = true → (V4.run_clients envs4).1 = false →
        (V4.main true probe envs4).1 = .exited 0)
    ∧ (healthLoop probe = true → (V6.run_clients envs6).1 = false →
        (V6.main true probe envs6).1 = .exited 0)
    ∧ ((V4.main euid4 probe envs4).1 ≠ .exited 0 →
        euid4 = false ∨ healthLoop probe = false ∨ (V4.run_clients envs4).1 = true)
    ∧ ((V6.main euid6 probe envs6).1 ≠ .exited 0 →
        euid6 = false ∨ healthLoop probe = false ∨ (V6.run_clients envs6).1 = true) := by
  refine ⟨⟨rfl, rfl⟩, ?_, ?_, ?_, ?_⟩
  · intro hp hc
    rcases h4 : V4.run_clients envs4 with ⟨crashed, stats', clients'⟩
    rw [h4] at hc
    simp only at hc
    subst hc
    simp [V4.main, hp, h4, V4.handle_exit]
  · intro hp hc
    rcases h6 : V6.run_clients envs6 with ⟨crashed, stats', clients'⟩
    rw [h6] at hc
    simp only at hc
    subst hc
    simp [V6.main, hp, h6, V6.handle_exit]
  · intro hne
    cases he : euid4 with
    | false => exact Or.inl rfl
    | true =>
      cases hp : healthLoop probe with
      | false => exact Or.inr (Or.inl rfl)
      | true =>
        rcases h4 : V4.run_clients envs4 with ⟨crashed, stats', clients'⟩
        cases crashed with
        | false =>
          exact absurd (by simp [V4.main, hp, h4, V4.handle_exit, he]) hne
        | true => exact Or.inr (Or.inr rfl)
  · intro hne
    cases he : euid6 with
    | false => exact Or.inl rfl
    | true =>
      cases hp : healthLoop probe with
      | false => exact Or.inr (Or.inl rfl)
      | true =>
        rcases h6 : V6.run_clients envs6 with ⟨crashed, stats', clients'⟩
        cases crashed with
        | false =>
          exact absurd (by simp [V6.main, hp, h6, V6.handle_exit, he]) hne
        | true => exact Or.inr (Or.inr rfl)

theorem c10_witness :
    (V4.main true [true] [([2, 0, 0, 0, 0, 1], 5, [])]).1 = ProcOutcome.exited 0 :=
  (c10_handle_exit_zero_status [true] [([2, 0, 0, 0, 0, 1], 5, [])] [] true true
    [] [] ⟨0, 0⟩).2.1 rfl (by decide)
